import Mathlib

/-
  Verification development for the MSSQL MCP server
  (src/MssqlMcp/Node/src/index.ts).

  The file embeds the connection-lifecycle and tool-dispatch logic of
  index.ts as executable Lean definitions and proves properties about
  them.  Conventions used throughout:

  - process.env is the Env structure; an unset variable is none.
  - JavaScript timestamps (Date values) are naturals counting
    milliseconds.
  - The two external effects of the code, token acquisition
    (credential.getToken) and the driver connect (sql.connect), are
    supplied as a World record of their outcomes; state fields
    tokenAcqCount and connectCount count how many times each effect is
    attempted.
  - Async functions that can throw are modelled with Except String.
-/

namespace MssqlMcp

/-- The environment variables that index.ts reads.  Each field models
one variable of process.env; none means the variable is unset.
CONNECTION_TIMEOUT is modelled as the parsed numeric value of the
variable when set (the parseInt call of line 44). -/
structure Env where
  SERVER_NAME : Option String := none
  DATABASE_NAME : Option String := none
  TRUST_SERVER_CERTIFICATE : Option String := none
  CONNECTION_TIMEOUT : Option Nat := none
  AUTH_TYPE : Option String := none
  WINDOWS_USERNAME : Option String := none
  WINDOWS_PASSWORD : Option String := none
  WINDOWS_DOMAIN : Option String := none
  SQL_USERNAME : Option String := none
  SQL_PASSWORD : Option String := none
  READONLY : Option String := none
deriving Repr, DecidableEq

deriving instance DecidableEq for Except

/-- The JavaScript toLowerCase call, spelled out over the character
list of the string so that it evaluates by kernel reduction. -/
def jsToLower (s : String) : String := ⟨s.data.map Char.toLower⟩

/-- JavaScript truthiness of an optional string: undefined and the
empty string are falsy. -/
def jsTruthy : Option String → Bool
  | none => false
  | some s => s ≠ ""

/-- The value || null pattern of lines 307 and 308: an undefined or
falsy (empty) token is stored as null. -/
def jsOrNullStr : Option String → Option String
  | none => none
  | some s => if s = "" then none else some s

/-- Boolean prefix test on character lists (spelled out so the
development depends on no library string-search helper). -/
def leadMatch : List Char → List Char → Bool
  | [], _ => true
  | _ :: _, [] => false
  | c :: cs, d :: ds => c = d && leadMatch cs ds

/-- Boolean substring test on character lists. -/
def hasSub : List Char → List Char → Bool
  | pat, [] => pat.isEmpty
  | pat, d :: ds => leadMatch pat (d :: ds) || hasSub pat ds

/-- The JavaScript String.includes test. -/
def jsIncludes (s pat : String) : Bool :=
  hasSub pat.toList s.toList

/-- The cloud endpoint marker tested on line 66 of index.ts. -/
def cloudSuffix : String := "database.windows.net"

/-- AUTH_TYPE resolution of lines 46 and 251:
process.env.AUTH_TYPE toLowerCase with || fallback, so an unset or
empty value yields azure. -/
def authTypeOf (env : Env) : String :=
  match env.AUTH_TYPE with
  | none => "azure"
  | some s => if jsToLower s = "" then "azure" else jsToLower s

/-- Which case of the createSqlConfig switch (lines 58-131) a given
authentication type selects.  The default case is azure. -/
inductive ConfigBranch where
  | windows
  | sqlPassword
  | azure
deriving Repr, DecidableEq

/-- The switch dispatch of createSqlConfig: windows and ntlm share the
first case, sql and sqlserver the second, everything else falls to the
default (azure) case. -/
def configBranch (env : Env) : ConfigBranch :=
  let a := authTypeOf env
  if a = "windows" ∨ a = "ntlm" then .windows
  else if a = "sql" ∨ a = "sqlserver" then .sqlPassword
  else .azure

/-- Result of credential.getToken: the token string and the optional
expiresOnTimestamp in milliseconds. -/
structure AccessToken where
  token : String
  expiresOnTimestamp : Option Nat := none
deriving Repr, DecidableEq

/-- The authentication field of the driver config: the ntlm option
block of lines 76-83 or the access-token block of lines 119-124. -/
inductive SqlAuthentication where
  | ntlm (domain userName password : String)
  | azureADToken (token : String)
deriving Repr, DecidableEq

/-- The options block of the driver config. -/
structure SqlOptions where
  encrypt : Bool
  trustServerCertificate : Bool
  enableArithAbort : Option Bool := none
deriving Repr, DecidableEq

/-- The driver config assembled by createSqlConfig.  server and
database copy SERVER_NAME and DATABASE_NAME (undefined propagates). -/
structure SqlConfig where
  server : Option String
  database : Option String
  options : SqlOptions
  connectionTimeout : Nat
  user : Option String := none
  password : Option String := none
  authentication : Option SqlAuthentication := none
deriving Repr, DecidableEq

/-- The record returned by createSqlConfig: the config plus, in the
azure case, the token and its expiry instant. -/
structure CreateSqlConfigResult where
  config : SqlConfig
  token : Option String := none
  expiresOn : Option Nat := none
deriving Repr, DecidableEq

/-- The baseConfig object of lines 48-56. -/
def baseConfig (env : Env) : SqlConfig :=
  { server := env.SERVER_NAME
    database := env.DATABASE_NAME
    options :=
      { encrypt := true
        trustServerCertificate :=
          (env.TRUST_SERVER_CERTIFICATE.map jsToLower) = some "true" }
    connectionTimeout := (env.CONNECTION_TIMEOUT.getD 30) * 1000 }

/-- createSqlConfig (lines 36-132).  tokenAcq is the outcome of the
credential.getToken call performed in the azure branch; now is
Date.now() in milliseconds, used for the 30-minute default expiry of
line 129.  A thrown error is an Except.error carrying the message. -/
def createSqlConfig (env : Env) (tokenAcq : Except String AccessToken)
    (now : Nat) : Except String CreateSqlConfigResult :=
  match configBranch env with
  | .windows =>
    let opts : SqlOptions :=
      { encrypt := (env.SERVER_NAME.map fun s => jsIncludes s cloudSuffix).getD false
        trustServerCertificate := true
        enableArithAbort := some true }
    let auth : Option SqlAuthentication :=
      if jsTruthy env.WINDOWS_USERNAME ∧ jsTruthy env.WINDOWS_PASSWORD then
        some (.ntlm (env.WINDOWS_DOMAIN.getD "")
          (env.WINDOWS_USERNAME.getD "") (env.WINDOWS_PASSWORD.getD ""))
      else none
    .ok { config := { baseConfig env with options := opts, authentication := auth } }
  | .sqlPassword =>
    if jsTruthy env.SQL_USERNAME ∧ jsTruthy env.SQL_PASSWORD then
      .ok { config := { baseConfig env with
                        user := env.SQL_USERNAME
                        password := env.SQL_PASSWORD } }
    else
      .error "SQL_USERNAME and SQL_PASSWORD environment variables are required for SQL Server authentication"
  | .azure =>
    match tokenAcq with
    | .error e => .error e
    | .ok tk =>
      .ok { config := { baseConfig env with
                        authentication := some (.azureADToken tk.token) }
            token := some tk.token
            expiresOn := some (tk.expiresOnTimestamp.getD (now + 30 * 60 * 1000)) }

/-- A driver connection pool object: its identity and whether it
currently reports itself connected. -/
structure Pool where
  id : Nat
  connected : Bool
deriving Repr, DecidableEq

/-- The module-level mutable globals of index.ts (lines 31-33),
extended with two instrumentation counters: connectCount counts
sql.connect attempts and tokenAcqCount counts credential.getToken
attempts (both count attempts, successful or not). -/
structure SqlState where
  globalSqlPool : Option Pool := none
  globalAccessToken : Option String := none
  globalTokenExpiresOn : Option Nat := none
  connectCount : Nat := 0
  tokenAcqCount : Nat := 0
deriving Repr, DecidableEq

/-- Outcomes of the two external effects during one call:
credential.getToken and sql.connect. -/
structure World where
  tokenAcq : Except String AccessToken
  connect : Except String Pool

/-- globalSqlPool && globalSqlPool.connected. -/
def poolConnected (s : SqlState) : Bool :=
  match s.globalSqlPool with
  | some p => p.connected
  | none => false

/-- The 2-minute token refresh buffer of line 300, in milliseconds. -/
def refreshSkewMs : Nat := 2 * 60 * 1000

/-- The azure-path reuse check of lines 295-301: pool exists and is
connected, the cached token is truthy, the cached expiry exists and is
strictly later than now plus the 2-minute buffer. -/
def azureValid (now : Nat) (s : SqlState) : Bool :=
  poolConnected s && jsTruthy s.globalAccessToken &&
    (match s.globalTokenExpiresOn with
     | some t => decide (now + refreshSkewMs < t)
     | none => false)

/-- await globalSqlPool.close(): the pool object stays referenced but
reports disconnected afterwards. -/
def closePool (s : SqlState) : SqlState :=
  { s with globalSqlPool := s.globalSqlPool.map fun p => { p with connected := false } }

/-- Calling createSqlConfig counts one token-acquisition attempt
exactly when the azure branch runs (only that branch touches the
credential). -/
def acqCountOf (env : Env) : Nat :=
  if configBranch env = .azure then 1 else 0

/-- The close-old-pool-then-connect tail shared by both management
paths of ensureSqlConnection (lines 262-270 and 310-315): close the
old pool if it is still connected, attempt sql.connect, and on success
install the new pool. -/
def reconnectTail (w : World) (s1 : SqlState) : Except String Unit × SqlState :=
  let s2 := if poolConnected s1 then closePool s1 else s1
  let s3 := { s2 with connectCount := s2.connectCount + 1 }
  match w.connect with
  | .error e => (.error e, s3)
  | .ok p => (.ok (), { s3 with globalSqlPool := some p })

/-- ensureSqlConnection (lines 250-316).  Returns the call outcome (ok
or the thrown error) together with the updated globals. -/
def ensureSqlConnection (env : Env) (w : World) (now : Nat) (s : SqlState) :
    Except String Unit × SqlState :=
  let authType := authTypeOf env
  if authType ≠ "azure" then
    -- non-azure management path (lines 254-292); the close step of
    -- the tail is dead here because the pool is not connected
    if poolConnected s then (.ok (), s)
    else
      let s1 := { s with tokenAcqCount := s.tokenAcqCount + acqCountOf env }
      match createSqlConfig env w.tokenAcq now with
      | .error e => (.error e, s1)
      | .ok _ => reconnectTail w s1
  else
    -- azure management path (lines 294-316)
    if azureValid now s then (.ok (), s)
    else
      let s1 := { s with tokenAcqCount := s.tokenAcqCount + acqCountOf env }
      match createSqlConfig env w.tokenAcq now with
      | .error e => (.error e, s1)
      | .ok r =>
        reconnectTail w { s1 with globalAccessToken := jsOrNullStr r.token
                                  globalTokenExpiresOn := r.expiresOn }

/-! ## Tool dispatch layer (lines 134-230 and 318-336) -/

/-- The eight tool instances registered in index.ts (lines 134-141). -/
inductive ToolId where
  | insertData
  | readData
  | updateData
  | createTable
  | createIndex
  | listTable
  | dropTable
  | describeTable
deriving Repr, DecidableEq

/-- The name field of an incoming CallTool request, matched by the
switch of lines 179-219 against the (pairwise distinct) registered
tool names: either it equals the name of one of the eight tools, or it
is some other string and falls to the default case. -/
inductive ReqName where
  | tool (t : ToolId)
  | other (s : String)
deriving Repr, DecidableEq

/-- One value inside the arguments object: a string, or anything that
is not a string (only the typeof test of line 202 inspects values). -/
inductive ArgVal where
  | vstr (s : String)
  | vother
deriving Repr, DecidableEq

/-- The arguments object of a request, as a key-value list. -/
abbrev Args := List (String × ArgVal)

/-- The check of line 202: args is present and args.tableName is a
string. -/
def tableNameIsString (args : Option Args) : Bool :=
  match args with
  | none => false
  | some a =>
    match a.lookup "tableName" with
    | some (.vstr _) => true
    | _ => false

/-- One item of the content array of a response; type is always the
string text in index.ts. -/
structure ContentItem where
  type : String
  text : String
deriving Repr, DecidableEq

/-- The response envelope of the CallTool handler.  The success return
of lines 221-223 omits isError, which a consumer reads as false, so
the field defaults to false here. -/
structure CallToolEnvelope where
  content : List ContentItem
  isError : Bool := false
deriving Repr, DecidableEq

/-- JSON.stringify(result, null, 2) of line 222.  Tool results are
modelled as their serialized text, so serialization is the identity on
that text. -/
def jsonStringifyPretty (r : String) : String := r

/-- The behavior of the original (unwrapped) tool run methods: given
the tool and the caller-supplied arguments, either a result or a
thrown error.  The tool bodies live outside index.ts and are external
collaborators of the dispatch layer. -/
def Behavior := ToolId → Option Args → Except String String

/-- The wrapped run method installed by wrapToolRun (lines 319-325):
await ensureSqlConnection, then the original run.  The final Bool
records whether the original tool body was invoked. -/
def wrappedRun (env : Env) (w : World) (now : Nat) (beh : Behavior)
    (t : ToolId) (args : Option Args) (s : SqlState) :
    Except String String × SqlState × Bool :=
  match ensureSqlConnection env w now s with
  | (.error e, s1) => (.error e, s1, false)
  | (.ok _, s1) => (beh t args, s1, true)

/-- The text of the early return of lines 203-211 (the quote marks
around tableName in the source message are elided). -/
def describeArgErrorText : String :=
  "Missing or invalid tableName argument for describe_table tool."

/-- One non-default case of the switch: run the (wrapped) tool, wrap a
successful result in the success envelope of lines 221-223, and let
the catch of lines 224-229 turn a thrown error into the error
envelope.  The returned list records the tool-body invocations made,
with the exact arguments passed. -/
def runToolCase (env : Env) (w : World) (now : Nat) (beh : Behavior)
    (t : ToolId) (args : Option Args) (s : SqlState) :
    CallToolEnvelope × SqlState × List (ToolId × Option Args) :=
  match wrappedRun env w now beh t args s with
  | (.ok r, s1, inv) =>
    ({ content := [⟨"text", jsonStringifyPretty r⟩] }, s1,
      if inv then [(t, args)] else [])
  | (.error e, s1, inv) =>
    ({ content := [⟨"text", "Error occurred: " ++ e⟩], isError := true }, s1,
      if inv then [(t, args)] else [])

/-- The CallToolRequestSchema handler (lines 175-230).  Note that the
handler never consults the read-only flag: the switch is the same in
both modes. -/
def handleCallTool (env : Env) (w : World) (now : Nat) (beh : Behavior)
    (s : SqlState) (name : ReqName) (args : Option Args) :
    CallToolEnvelope × SqlState × List (ToolId × Option Args) :=
  match name with
  | .other nm =>
    ({ content := [⟨"text", "Unknown tool: " ++ nm⟩], isError := true }, s, [])
  | .tool .describeTable =>
    if tableNameIsString args then
      runToolCase env w now beh .describeTable args s
    else
      ({ content := [⟨"text", describeArgErrorText⟩], isError := true }, s, [])
  | .tool t => runToolCase env w now beh t args s

/-- process.env.READONLY === "true" (line 156). -/
def isReadOnly (env : Env) : Bool := env.READONLY = some "true"

/-- The ListToolsRequestSchema handler (lines 160-173): the advertised
tool list, filtered when the read-only flag is set. -/
def listedTools (env : Env) : List ToolId :=
  if isReadOnly env then [.listTable, .readData, .describeTable]
  else [.insertData, .readData, .describeTable, .updateData,
        .createTable, .createIndex, .dropTable, .listTable]

/-! ## Concurrency model for ensureSqlConnection

index.ts has no lock around the connection globals, so two overlapping
calls interleave at the await points.  The azure management path of
ensureSqlConnection is cut into its atomic segments:

  - check: the reuse test of lines 295-303 (synchronous);
    it either returns (done) or starts await createSqlConfig().
  - config: the code that runs when createSqlConfig resolves
    (lines 306-313): store token and expiry, close a connected old
    pool, start await sql.connect(config).
  - connecting: the code that runs when sql.connect resolves
    (line 315): install the new pool.

The close await inside the config segment is folded into that segment;
in the scenarios below no old pool exists, so nothing is coarsened. -/

/-- Program counter of one in-flight ensureSqlConnection call. -/
inductive TPC where
  | check
  | config
  | connecting
  | done
deriving Repr, DecidableEq

/-- One in-flight call: its program counter and whether it has issued
a sql.connect attempt. -/
structure Th where
  pc : TPC := .check
  did : Bool := false
deriving Repr, DecidableEq

/-- One atomic segment of the azure path of ensureSqlConnection,
acting on the shared globals. -/
def threadStep (env : Env) (w : World) (now : Nat) :
    Th → SqlState → Th × SqlState
  | ⟨.check, d⟩, s =>
    if azureValid now s then (⟨.done, d⟩, s) else (⟨.config, d⟩, s)
  | ⟨.config, d⟩, s =>
    let s1 := { s with tokenAcqCount := s.tokenAcqCount + acqCountOf env }
    match createSqlConfig env w.tokenAcq now with
    | .error _ => (⟨.done, d⟩, s1)
    | .ok r =>
      let s2 := { s1 with globalAccessToken := jsOrNullStr r.token
                          globalTokenExpiresOn := r.expiresOn }
      let s3 := if poolConnected s2 then closePool s2 else s2
      (⟨.connecting, true⟩, { s3 with connectCount := s3.connectCount + 1 })
  | ⟨.connecting, d⟩, s =>
    match w.connect with
    | .error _ => (⟨.done, d⟩, s)
    | .ok p => (⟨.done, d⟩, { s with globalSqlPool := some p })
  | ⟨.done, d⟩, s => (⟨.done, d⟩, s)

/-- Two overlapping ensureSqlConnection calls over the shared
globals. -/
structure TwoCalls where
  a : Th
  b : Th
  s : SqlState
deriving Repr, DecidableEq

/-- Run one atomic segment of caller a (true) or caller b (false). -/
def sysStep (env : Env) (w : World) (now : Nat) (sys : TwoCalls) :
    Bool → TwoCalls
  | true =>
    let r := threadStep env w now sys.a sys.s
    { sys with a := r.1, s := r.2 }
  | false =>
    let r := threadStep env w now sys.b sys.s
    { sys with b := r.1, s := r.2 }

/-- Run a whole interleaving schedule. -/
def runSched (env : Env) (w : World) (now : Nat) :
    TwoCalls → List Bool → TwoCalls
  | sys, [] => sys
  | sys, i :: rest => runSched env w now (sysStep env w now sys i) rest

/-- Both overlapping calls have returned. -/
def bothDone (sys : TwoCalls) : Prop :=
  sys.a.pc = .done ∧ sys.b.pc = .done

instance (sys : TwoCalls) : Decidable (bothDone sys) :=
  inferInstanceAs (Decidable (_ ∧ _))

/-- Boolean success test on a call outcome. -/
def isOkB {ε α : Type _} : Except ε α → Bool
  | .ok _ => true
  | .error _ => false

/-- The fast-path reuse guard of ensureSqlConnection: on the
non-azure path the pool-connected test of line 255, on the azure path
the token-validity test of lines 295-301. -/
def reusable (env : Env) (now : Nat) (s : SqlState) : Bool :=
  if authTypeOf env ≠ "azure" then poolConnected s else azureValid now s

/-! ## Concrete fixtures used by witnesses and counterexamples -/

/-- An environment with AUTH_TYPE unset, which resolves to azure. -/
def envAzure0 : Env := { SERVER_NAME := some "srv", DATABASE_NAME := some "db" }

/-- An environment naming the azure mode explicitly. -/
def envAzureNamed : Env :=
  { AUTH_TYPE := some "azure", SERVER_NAME := some "srv", DATABASE_NAME := some "db" }

/-- An environment with an unrecognized authentication mode. -/
def envEntra : Env :=
  { AUTH_TYPE := some "entra", SERVER_NAME := some "srv", DATABASE_NAME := some "db" }

/-- A windows-mode environment pointing at a local server. -/
def envWinLocal : Env :=
  { AUTH_TYPE := some "windows", SERVER_NAME := some "localhost", DATABASE_NAME := some "db" }

/-- A windows-mode environment pointing at a cloud endpoint. -/
def envWinCloud : Env :=
  { AUTH_TYPE := some "windows"
    SERVER_NAME := some "myserver.database.windows.net"
    DATABASE_NAME := some "db" }

/-- The read-only fixture environment. -/
def envReadOnly : Env :=
  { SERVER_NAME := some "srv", DATABASE_NAME := some "db", READONLY := some "true" }

/-- A world in which both external effects succeed. -/
def okWorld : World :=
  { tokenAcq := .ok { token := "tok", expiresOnTimestamp := some 10000000 }
    connect := .ok { id := 1, connected := true } }

/-- A world in which the driver connect fails. -/
def connectFailWorld : World :=
  { tokenAcq := .ok { token := "tok", expiresOnTimestamp := some 10000000 }
    connect := .error "connect refused" }

/-- A state holding only a connected pool: no token is cached. -/
def poolOnlyState : SqlState := { globalSqlPool := some { id := 0, connected := true } }

/-- Tool behavior that always succeeds. -/
def okBehavior : Behavior := fun _ _ => .ok "rows"

/-- The initial configuration of the two-caller concurrency model:
both calls at their entry, empty globals. -/
def initTwoCalls : TwoCalls := { a := {}, b := {}, s := {} }

/-- The state left behind by a failed azure connect from the empty
state in connectFailWorld. -/
def failedState : SqlState :=
  { globalSqlPool := none, globalAccessToken := some "tok"
    globalTokenExpiresOn := some 10000000
    connectCount := 1, tokenAcqCount := 1 }

/-- Invariant of the two-caller model: the shared connect counter
equals the number of callers that issued a connect attempt, a
connected pool certifies at least one attempt, a finished caller
either connected itself or finished after some attempt, and the
program counter determines the attempt flag. -/
def TwoInv (sys : TwoCalls) : Prop :=
  sys.s.connectCount = sys.a.did.toNat + sys.b.did.toNat ∧
  (poolConnected sys.s = true → 1 ≤ sys.s.connectCount) ∧
  (sys.a.pc = .done → sys.a.did = true ∨ 1 ≤ sys.s.connectCount) ∧
  (sys.b.pc = .done → sys.b.did = true ∨ 1 ≤ sys.s.connectCount) ∧
  (sys.a.pc = .check ∨ sys.a.pc = .config → sys.a.did = false) ∧
  (sys.b.pc = .check ∨ sys.b.pc = .config → sys.b.did = false) ∧
  (sys.a.pc = .connecting → sys.a.did = true) ∧
  (sys.b.pc = .connecting → sys.b.did = true)

instance (sys : TwoCalls) : Decidable (TwoInv sys) :=
  inferInstanceAs (Decidable (_ ∧ _))


/-! ## Theorems

Helper lemmas first, then one theorem per verified claim, each with
its witness or counterexample where applicable. -/

lemma configBranch_azure_of_authType (env : Env) (h : authTypeOf env = "azure") :
    configBranch env = .azure := by
  unfold configBranch
  simp only [h]
  decide

lemma acqCountOf_azure (env : Env) (h : authTypeOf env = "azure") :
    acqCountOf env = 1 := by
  unfold acqCountOf
  rw [configBranch_azure_of_authType env h]
  decide

lemma poolConnected_closePool (s : SqlState) :
    poolConnected (closePool s) = false := by
  unfold poolConnected closePool
  cases s.globalSqlPool <;> simp

lemma azureValid_of_not_poolConnected (now : Nat) (s : SqlState)
    (h : poolConnected s = false) : azureValid now s = false := by
  unfold azureValid
  simp [h]

lemma azureValid_false_mono (now now2 : Nat) (s : SqlState)
    (h : azureValid now s = false) (hle : now ≤ now2) :
    azureValid now2 s = false := by
  unfold azureValid at h ⊢
  cases hp : poolConnected s <;> simp [hp] at h ⊢
  cases ht : jsTruthy s.globalAccessToken <;> simp [ht] at h ⊢
  cases hm : s.globalTokenExpiresOn with
  | none => simp
  | some t => simp [hm] at h ⊢; omega

lemma reconnectTail_connectCount (w : World) (s1 : SqlState) :
    (reconnectTail w s1).2.connectCount = s1.connectCount + 1 := by
  unfold reconnectTail
  dsimp only
  cases w.connect <;> dsimp only <;> split <;> simp [closePool]

lemma reconnectTail_tokenAcqCount (w : World) (s1 : SqlState) :
    (reconnectTail w s1).2.tokenAcqCount = s1.tokenAcqCount := by
  unfold reconnectTail
  dsimp only
  cases w.connect <;> dsimp only <;> split <;> simp [closePool]

lemma reconnectTail_error (w : World) (s1 : SqlState) (e : String)
    (h : w.connect = .error e) :
    (reconnectTail w s1).1 = .error e ∧
      poolConnected (reconnectTail w s1).2 = false := by
  unfold reconnectTail
  dsimp only
  rw [h]
  dsimp only
  constructor
  · rfl
  · by_cases hp : poolConnected s1 = true
    · rw [if_pos hp]
      show poolConnected { closePool s1 with connectCount := _ } = false
      have : poolConnected { closePool s1 with connectCount := (closePool s1).connectCount + 1 } = poolConnected (closePool s1) := rfl
      rw [this, poolConnected_closePool]
    · rw [if_neg hp]
      show poolConnected { s1 with connectCount := _ } = false
      have : poolConnected { s1 with connectCount := s1.connectCount + 1 } = poolConnected s1 := rfl
      rw [this]
      simpa using hp

lemma reconnectTail_ok (w : World) (s1 : SqlState) (p : Pool)
    (h : w.connect = .ok p) :
    (reconnectTail w s1).1 = .ok () := by
  unfold reconnectTail
  dsimp only
  rw [h]


lemma ensure_of_reusable (env : Env) (w : World) (now : Nat) (s : SqlState)
    (h : reusable env now s = true) :
    ensureSqlConnection env w now s = (.ok (), s) := by
  unfold ensureSqlConnection
  unfold reusable at h
  by_cases hA : authTypeOf env = "azure"
  · simp only [hA, ne_eq, not_true_eq_false, if_false, ite_false] at h ⊢
    simp [h]
  · simp only [ne_eq, hA, not_false_eq_true, if_true, ite_true] at h ⊢
    simp [h, hA]

lemma ensure_connectCount_le (env : Env) (w : World) (now : Nat) (s : SqlState) :
    (ensureSqlConnection env w now s).2.connectCount ≤ s.connectCount + 1 := by
  unfold ensureSqlConnection
  dsimp only
  split
  · split
    · simp
    · cases hcfg : createSqlConfig env w.tokenAcq now with
      | error e => simp
      | ok r =>
        dsimp only
        rw [reconnectTail_connectCount]
  · split
    · simp
    · cases hcfg : createSqlConfig env w.tokenAcq now with
      | error e => simp
      | ok r =>
        dsimp only
        rw [reconnectTail_connectCount]

lemma ensure_error_not_reusable (env : Env) (w : World) (now now2 : Nat)
    (s s2 : SqlState) (e : String)
    (hfail : ensureSqlConnection env w now s = (.error e, s2))
    (hle : now ≤ now2) :
    reusable env now2 s2 = false := by
  unfold ensureSqlConnection at hfail
  dsimp only at hfail
  unfold reusable
  by_cases hA : authTypeOf env = "azure"
  · rw [if_neg (by simpa using not_not_intro hA)] at hfail
    rw [if_neg (by simpa using not_not_intro hA)]
    by_cases hv : azureValid now s = true
    · rw [if_pos hv] at hfail
      exact absurd (congrArg Prod.fst hfail) (by simp)
    · rw [if_neg hv] at hfail
      have hv2 : azureValid now s = false := by simpa using hv
      cases hcfg : createSqlConfig env w.tokenAcq now with
      | error e2 =>
        rw [hcfg] at hfail
        dsimp only at hfail
        rw [Prod.ext_iff] at hfail
        have hs : s2 = { s with tokenAcqCount := s.tokenAcqCount + acqCountOf env } :=
          hfail.2.symm
        rw [hs]
        have heq : azureValid now2 { s with tokenAcqCount := s.tokenAcqCount + acqCountOf env } = azureValid now2 s := rfl
        rw [heq]
        exact azureValid_false_mono now now2 s hv2 hle
      | ok r =>
        rw [hcfg] at hfail
        dsimp only at hfail
        cases hcn : w.connect with
        | error e2 =>
          have hrt := reconnectTail_error w
            { s with globalAccessToken := jsOrNullStr r.token
                     globalTokenExpiresOn := r.expiresOn
                     tokenAcqCount := s.tokenAcqCount + acqCountOf env } e2 hcn
          rw [Prod.ext_iff] at hfail
          have hs : s2 = (reconnectTail w _).2 := hfail.2.symm
          rw [hs]
          exact azureValid_of_not_poolConnected now2 _ hrt.2
        | ok p =>
          have hrt := reconnectTail_ok w
            { s with globalAccessToken := jsOrNullStr r.token
                     globalTokenExpiresOn := r.expiresOn
                     tokenAcqCount := s.tokenAcqCount + acqCountOf env } p hcn
          rw [Prod.ext_iff] at hfail
          rw [hrt] at hfail
          exact absurd hfail.1 (by simp)
  · rw [if_pos (by simpa using hA)] at hfail
    rw [if_pos (by simpa using hA)]
    by_cases hp : poolConnected s = true
    · rw [if_pos hp] at hfail
      exact absurd (congrArg Prod.fst hfail) (by simp)
    · rw [if_neg hp] at hfail
      have hp2 : poolConnected s = false := by simpa using hp
      cases hcfg : createSqlConfig env w.tokenAcq now with
      | error e2 =>
        rw [hcfg] at hfail
        dsimp only at hfail
        rw [Prod.ext_iff] at hfail
        have hs : s2 = { s with tokenAcqCount := s.tokenAcqCount + acqCountOf env } :=
          hfail.2.symm
        rw [hs]
        show poolConnected s = false
        exact hp2
      | ok r =>
        rw [hcfg] at hfail
        dsimp only at hfail
        cases hcn : w.connect with
        | error e2 =>
          have hrt := reconnectTail_error w
            { s with tokenAcqCount := s.tokenAcqCount + acqCountOf env } e2 hcn
          rw [Prod.ext_iff] at hfail
          have hs : s2 = (reconnectTail w _).2 := hfail.2.symm
          rw [hs]
          exact hrt.2
        | ok p =>
          have hrt := reconnectTail_ok w
            { s with tokenAcqCount := s.tokenAcqCount + acqCountOf env } p hcn
          rw [Prod.ext_iff] at hfail
          rw [hrt] at hfail
          exact absurd hfail.1 (by simp)

lemma ensure_ok_of_config_connect (env : Env) (w : World) (now : Nat) (s : SqlState)
    (r : CreateSqlConfigResult) (q : Pool)
    (h1 : reusable env now s = false)
    (h2 : createSqlConfig env w.tokenAcq now = .ok r)
    (h3 : w.connect = .ok q) :
    (ensureSqlConnection env w now s).1 = .ok () := by
  unfold ensureSqlConnection
  dsimp only
  unfold reusable at h1
  by_cases hA : authTypeOf env = "azure"
  · rw [if_neg (by simpa using not_not_intro hA)] at h1 ⊢
    rw [if_neg (by simp [h1])]
    rw [h2]
    dsimp only
    exact reconnectTail_ok w _ q h3
  · rw [if_pos (by simpa using hA)] at h1 ⊢
    rw [if_neg (by simp [h1])]
    rw [h2]
    dsimp only
    exact reconnectTail_ok w _ q h3


lemma createSqlConfig_azure_ok (env : Env) (tk : AccessToken) (now : Nat)
    (h : configBranch env = .azure) :
    ∃ r, createSqlConfig env (.ok tk) now = .ok r := by
  unfold createSqlConfig
  rw [h]
  exact ⟨_, rfl⟩

lemma ensure_azure_acq (env : Env) (w : World) (now : Nat) (s : SqlState)
    (hA : authTypeOf env = "azure") (hv : azureValid now s = false) :
    (ensureSqlConnection env w now s).2.tokenAcqCount = s.tokenAcqCount + 1 := by
  unfold ensureSqlConnection
  dsimp only
  rw [if_neg (by simpa using not_not_intro hA), if_neg (by simp [hv])]
  cases hcfg : createSqlConfig env w.tokenAcq now with
  | error e => simp [acqCountOf_azure env hA]
  | ok r =>
    dsimp only
    rw [reconnectTail_tokenAcqCount]
    simp [acqCountOf_azure env hA]

lemma ensure_azure_reconnects (env : Env) (w : World) (now : Nat) (s : SqlState)
    (tk : AccessToken)
    (hA : authTypeOf env = "azure") (hv : azureValid now s = false)
    (htk : w.tokenAcq = .ok tk) :
    (ensureSqlConnection env w now s).2.connectCount = s.connectCount + 1 := by
  unfold ensureSqlConnection
  dsimp only
  rw [if_neg (by simpa using not_not_intro hA), if_neg (by simp [hv])]
  rw [htk]
  obtain ⟨r, hr⟩ := createSqlConfig_azure_ok env tk now (configBranch_azure_of_authType env hA)
  rw [hr]
  dsimp only
  rw [reconnectTail_connectCount]

/-- C4: under federated-identity (azure) mode, with a connected pool
and a cached truthy token, a cached expiry lying exactly refreshSkewMs
in the future fails the validity check, so ensureSqlConnection starts
a fresh credential resolution (and, when the token acquisition
succeeds, performs a connect attempt); an expiry one millisecond
further is accepted and the call returns with the state untouched. -/
theorem token_expiry_boundary (env : Env) (w : World) (now : Nat) (s : SqlState) (p : Pool)
    (hAuth : authTypeOf env = "azure")
    (hPool : s.globalSqlPool = some p) (hConn : p.connected = true)
    (hTok : jsTruthy s.globalAccessToken = true) :
    (s.globalTokenExpiresOn = some (now + refreshSkewMs) →
       azureValid now s = false ∧
       (ensureSqlConnection env w now s).2.tokenAcqCount = s.tokenAcqCount + 1 ∧
       (∀ tk, w.tokenAcq = .ok tk →
          (ensureSqlConnection env w now s).2.connectCount = s.connectCount + 1)) ∧
    (s.globalTokenExpiresOn = some (now + refreshSkewMs + 1) →
       azureValid now s = true ∧
       ensureSqlConnection env w now s = (.ok (), s)) := by
  have hpc : poolConnected s = true := by
    unfold poolConnected
    rw [hPool]
    exact hConn
  constructor
  · intro hexp
    have hv : azureValid now s = false := by
      unfold azureValid
      rw [hexp]
      simp
    refine ⟨hv, ensure_azure_acq env w now s hAuth hv, ?_⟩
    intro tk htk
    exact ensure_azure_reconnects env w now s tk hAuth hv htk
  · intro hexp
    have hv : azureValid now s = true := by
      unfold azureValid
      rw [hexp]
      simp [hpc, hTok]
    refine ⟨hv, ?_⟩
    apply ensure_of_reusable
    unfold reusable
    rw [if_neg (by simpa using not_not_intro hAuth)]
    exact hv

/-- Witness for token_expiry_boundary at now = 1000 with a concrete
azure environment and cached state. -/
theorem token_expiry_boundary_witness :
    azureValid 1000 { globalSqlPool := some { id := 0, connected := true }
                      globalAccessToken := some "tok"
                      globalTokenExpiresOn := some (1000 + refreshSkewMs) } = false ∧
    azureValid 1000 { globalSqlPool := some { id := 0, connected := true }
                      globalAccessToken := some "tok"
                      globalTokenExpiresOn := some (1000 + refreshSkewMs + 1) } = true := by
  constructor
  · exact ((token_expiry_boundary envAzureNamed okWorld 1000
      { globalSqlPool := some { id := 0, connected := true }
        globalAccessToken := some "tok"
        globalTokenExpiresOn := some (1000 + refreshSkewMs) }
      { id := 0, connected := true } (by decide) rfl rfl (by decide)).1 rfl).1
  · exact ((token_expiry_boundary envAzureNamed okWorld 1000
      { globalSqlPool := some { id := 0, connected := true }
        globalAccessToken := some "tok"
        globalTokenExpiresOn := some (1000 + refreshSkewMs + 1) }
      { id := 0, connected := true } (by decide) rfl rfl (by decide)).2 rfl).1


/-- C5: with a connected pool and, under azure mode, a token valid at
both instants, two successive ensureSqlConnection calls both return
without touching the state: no connect attempt and no token
acquisition happens (the counters are unchanged because the state is
returned as is). -/
theorem ensure_idempotent_when_valid (env : Env) (w1 w2 : World)
    (now1 now2 : Nat) (s : SqlState)
    (hPool : poolConnected s = true)
    (hAz : authTypeOf env = "azure" →
      azureValid now1 s = true ∧ azureValid now2 s = true) :
    ensureSqlConnection env w1 now1 s = (.ok (), s) ∧
    ensureSqlConnection env w2 now2 (ensureSqlConnection env w1 now1 s).2 =
      (.ok (), s) := by
  have hr1 : reusable env now1 s = true := by
    unfold reusable
    by_cases hA : authTypeOf env = "azure"
    · rw [if_neg (by simpa using not_not_intro hA)]
      exact (hAz hA).1
    · rw [if_pos (by simpa using hA)]
      exact hPool
  have hr2 : reusable env now2 s = true := by
    unfold reusable
    by_cases hA : authTypeOf env = "azure"
    · rw [if_neg (by simpa using not_not_intro hA)]
      exact (hAz hA).2
    · rw [if_pos (by simpa using hA)]
      exact hPool
  have h1 := ensure_of_reusable env w1 now1 s hr1
  refine ⟨h1, ?_⟩
  rw [h1]
  exact ensure_of_reusable env w2 now2 s hr2

/-- Witness for ensure_idempotent_when_valid: a connected pool with a
token expiring far beyond the skew, checked at two instants. -/
theorem ensure_idempotent_when_valid_witness :
    ensureSqlConnection envAzureNamed okWorld 0
        { globalSqlPool := some { id := 0, connected := true }
          globalAccessToken := some "tok"
          globalTokenExpiresOn := some 10000000 } =
      (.ok (), { globalSqlPool := some { id := 0, connected := true }
                 globalAccessToken := some "tok"
                 globalTokenExpiresOn := some 10000000 }) ∧
    ensureSqlConnection envAzureNamed okWorld 5
        (ensureSqlConnection envAzureNamed okWorld 0
          { globalSqlPool := some { id := 0, connected := true }
            globalAccessToken := some "tok"
            globalTokenExpiresOn := some 10000000 }).2 =
      (.ok (), { globalSqlPool := some { id := 0, connected := true }
                 globalAccessToken := some "tok"
                 globalTokenExpiresOn := some 10000000 }) :=
  ensure_idempotent_when_valid envAzureNamed okWorld okWorld 0 5
    { globalSqlPool := some { id := 0, connected := true }
      globalAccessToken := some "tok"
      globalTokenExpiresOn := some 10000000 }
    (by decide) (fun _ => by constructor <;> decide)

/-- C6: when ensureSqlConnection fails, the single call made at most
one connect attempt (no automatic retry), the failure leaves a state
on which the reuse fast path cannot fire at any later instant, and a
subsequent call whose credential resolution and connect succeed
returns ok: no failed state is permanently wedged. -/
theorem ensure_failure_no_retry_and_recoverable (env : Env) (w : World)
    (now : Nat) (s : SqlState) (e : String) (s2 : SqlState)
    (hfail : ensureSqlConnection env w now s = (.error e, s2)) :
    s2.connectCount ≤ s.connectCount + 1 ∧
    (∀ now2, now ≤ now2 → reusable env now2 s2 = false) ∧
    (∀ now2 (w2 : World) r q, now ≤ now2 →
       createSqlConfig env w2.tokenAcq now2 = .ok r → w2.connect = .ok q →
       (ensureSqlConnection env w2 now2 s2).1 = .ok ()) := by
  refine ⟨?_, ?_, ?_⟩
  · have := ensure_connectCount_le env w now s
    rw [hfail] at this
    exact this
  · intro now2 hle
    exact ensure_error_not_reusable env w now now2 s s2 e hfail hle
  · intro now2 w2 r q hle h2 h3
    exact ensure_ok_of_config_connect env w2 now2 s2 r q
      (ensure_error_not_reusable env w now now2 s s2 e hfail hle) h2 h3

/-- Witness for ensure_failure_no_retry_and_recoverable: a failed
connect from the empty state, followed by a successful retry. -/
theorem ensure_failure_no_retry_and_recoverable_witness :
    failedState.connectCount ≤ 0 + 1 ∧
    reusable envAzureNamed 5 failedState = false ∧
    (ensureSqlConnection envAzureNamed okWorld 5 failedState).1 = .ok () := by
  have h := ensure_failure_no_retry_and_recoverable envAzureNamed connectFailWorld 0
    {} "connect refused" failedState (by decide)
  obtain ⟨r, hr⟩ := createSqlConfig_azure_ok envAzureNamed
    { token := "tok", expiresOnTimestamp := some 10000000 } 5 (by decide)
  exact ⟨h.1, h.2.1 5 (by decide),
    h.2.2 5 okWorld r { id := 1, connected := true } (by decide) hr rfl⟩


lemma runToolCase_shape (env : Env) (w : World) (now : Nat) (beh : Behavior)
    (t : ToolId) (args : Option Args) (s : SqlState) :
    (∃ e, (runToolCase env w now beh t args s).1 =
       { content := [⟨"text", "Error occurred: " ++ e⟩], isError := true }) ∨
    (∃ r, (runToolCase env w now beh t args s).1 =
       { content := [⟨"text", jsonStringifyPretty r⟩], isError := false }) := by
  unfold runToolCase
  rcases hwr : wrappedRun env w now beh t args s with ⟨res, s1, inv⟩
  cases res with
  | error e => left; exact ⟨e, rfl⟩
  | ok r => right; exact ⟨r, rfl⟩

lemma runToolCase_trace (env : Env) (w : World) (now : Nat) (beh : Behavior)
    (t : ToolId) (args : Option Args) (s : SqlState) :
    (runToolCase env w now beh t args s).2.2 =
      if isOkB (ensureSqlConnection env w now s).1 then [(t, args)] else [] := by
  unfold runToolCase wrappedRun
  rcases hens : ensureSqlConnection env w now s with ⟨res, s1⟩
  cases res with
  | error e => simp [isOkB]
  | ok u =>
    dsimp only
    cases beh t args <;> simp [isOkB]

/-- C7: the CallTool handler is total and always returns one of four
well-formed envelopes: the unknown-tool error, the describe_table
argument error, the caught-error envelope (any failure of connection
establishment or of the tool body), or the success envelope wrapping
the serialized tool result.  No raw exception reaches the
transport. -/
theorem dispatch_always_returns_envelope (env : Env) (w : World) (now : Nat)
    (beh : Behavior) (s : SqlState) (name : ReqName) (args : Option Args) :
    (∃ nm, name = .other nm ∧
       (handleCallTool env w now beh s name args).1 =
         { content := [⟨"text", "Unknown tool: " ++ nm⟩], isError := true }) ∨
    ((handleCallTool env w now beh s name args).1 =
       { content := [⟨"text", describeArgErrorText⟩], isError := true }) ∨
    (∃ e, (handleCallTool env w now beh s name args).1 =
       { content := [⟨"text", "Error occurred: " ++ e⟩], isError := true }) ∨
    (∃ r, (handleCallTool env w now beh s name args).1 =
       { content := [⟨"text", jsonStringifyPretty r⟩], isError := false }) := by
  cases name with
  | other nm => left; exact ⟨nm, rfl, rfl⟩
  | tool t =>
    cases t with
    | describeTable =>
      by_cases hv : tableNameIsString args = true
      · have hred : handleCallTool env w now beh s (.tool .describeTable) args =
            runToolCase env w now beh .describeTable args s := by
          unfold handleCallTool
          rw [if_pos hv]
        rcases runToolCase_shape env w now beh .describeTable args s with ⟨e, he⟩ | ⟨r, hr⟩
        · right; right; left; exact ⟨e, by rw [hred]; exact he⟩
        · right; right; right; exact ⟨r, by rw [hred]; exact hr⟩
      · right; left
        unfold handleCallTool
        rw [if_neg hv]
    | insertData =>
      rcases runToolCase_shape env w now beh .insertData args s with ⟨e, he⟩ | ⟨r, hr⟩
      · right; right; left; exact ⟨e, he⟩
      · right; right; right; exact ⟨r, hr⟩
    | readData =>
      rcases runToolCase_shape env w now beh .readData args s with ⟨e, he⟩ | ⟨r, hr⟩
      · right; right; left; exact ⟨e, he⟩
      · right; right; right; exact ⟨r, hr⟩
    | updateData =>
      rcases runToolCase_shape env w now beh .updateData args s with ⟨e, he⟩ | ⟨r, hr⟩
      · right; right; left; exact ⟨e, he⟩
      · right; right; right; exact ⟨r, hr⟩
    | createTable =>
      rcases runToolCase_shape env w now beh .createTable args s with ⟨e, he⟩ | ⟨r, hr⟩
      · right; right; left; exact ⟨e, he⟩
      · right; right; right; exact ⟨r, hr⟩
    | createIndex =>
      rcases runToolCase_shape env w now beh .createIndex args s with ⟨e, he⟩ | ⟨r, hr⟩
      · right; right; left; exact ⟨e, he⟩
      · right; right; right; exact ⟨r, hr⟩
    | listTable =>
      rcases runToolCase_shape env w now beh .listTable args s with ⟨e, he⟩ | ⟨r, hr⟩
      · right; right; left; exact ⟨e, he⟩
      · right; right; right; exact ⟨r, hr⟩
    | dropTable =>
      rcases runToolCase_shape env w now beh .dropTable args s with ⟨e, he⟩ | ⟨r, hr⟩
      · right; right; left; exact ⟨e, he⟩
      · right; right; right; exact ⟨r, hr⟩

/-- C10: the describe_table case is the only one whose arguments the
handler itself validates: with a missing or non-string tableName the
handler returns the argument-error envelope with the state untouched
and no tool body invoked (so no connection establishment either);
every other tool case, and describe_table with a string tableName,
passes the caller arguments to the (wrapped) tool body unvalidated,
invoking the body exactly when connection establishment succeeds. -/
theorem describe_table_only_dispatch_validation (env : Env) (w : World)
    (now : Nat) (beh : Behavior) (s : SqlState) (args : Option Args) :
    (tableNameIsString args = false →
       handleCallTool env w now beh s (.tool .describeTable) args =
         ({ content := [⟨"text", describeArgErrorText⟩], isError := true }, s, [])) ∧
    (∀ t, t ≠ ToolId.describeTable →
       (handleCallTool env w now beh s (.tool t) args).2.2 =
         if isOkB (ensureSqlConnection env w now s).1 then [(t, args)] else []) ∧
    (tableNameIsString args = true →
       (handleCallTool env w now beh s (.tool .describeTable) args).2.2 =
         if isOkB (ensureSqlConnection env w now s).1 then [(.describeTable, args)] else []) := by
  refine ⟨?_, ?_, ?_⟩
  · intro h
    unfold handleCallTool
    rw [if_neg (by simp [h])]
  · intro t ht
    cases t with
    | describeTable => exact absurd rfl ht
    | insertData => exact runToolCase_trace env w now beh .insertData args s
    | readData => exact runToolCase_trace env w now beh .readData args s
    | updateData => exact runToolCase_trace env w now beh .updateData args s
    | createTable => exact runToolCase_trace env w now beh .createTable args s
    | createIndex => exact runToolCase_trace env w now beh .createIndex args s
    | listTable => exact runToolCase_trace env w now beh .listTable args s
    | dropTable => exact runToolCase_trace env w now beh .dropTable args s
  · intro h
    have hred : handleCallTool env w now beh s (.tool .describeTable) args =
        runToolCase env w now beh .describeTable args s := by
      unfold handleCallTool
      rw [if_pos h]
    rw [hred]
    exact runToolCase_trace env w now beh .describeTable args s

/-- Witness for describe_table_only_dispatch_validation: missing
arguments short-circuit describe_table, while read_data with the same
missing arguments reaches its body. -/
theorem describe_table_only_dispatch_validation_witness :
    handleCallTool envAzure0 okWorld 0 okBehavior {} (.tool .describeTable) none =
      ({ content := [⟨"text", describeArgErrorText⟩], isError := true }, {}, []) ∧
    (handleCallTool envAzure0 okWorld 0 okBehavior {} (.tool .readData) none).2.2 =
      [(.readData, none)] := by
  have h := describe_table_only_dispatch_validation envAzure0 okWorld 0 okBehavior {} none
  refine ⟨h.1 (by decide), ?_⟩
  have h2 := h.2.1 .readData (by decide)
  rw [h2]
  decide


/-- C1 counterexample: dispatching read_data with no arguments at all
(hence no filter predicate) does not fail before the tool body runs:
the body is invoked with the absent arguments and the handler returns
the success envelope.  No predicate check exists in the dispatch
layer. -/
theorem read_dispatch_without_predicate_invokes_tool :
    (handleCallTool envAzure0 okWorld 0 okBehavior {} (.tool .readData) none).2.2 =
      [(.readData, none)] ∧
    (handleCallTool envAzure0 okWorld 0 okBehavior {} (.tool .readData) none).1.isError =
      false := by
  decide

/-- C1 amended: the dispatch layer performs no predicate validation;
a read_data or update_data call is forwarded to the tool body with
exactly the caller-supplied arguments, whatever they are, whenever
connection establishment succeeds. -/
theorem dispatch_forwards_read_update_unvalidated (env : Env) (w : World)
    (now : Nat) (beh : Behavior) (s : SqlState) (args : Option Args) (t : ToolId)
    (ht : t = ToolId.readData ∨ t = ToolId.updateData)
    (hok : isOkB (ensureSqlConnection env w now s).1 = true) :
    (handleCallTool env w now beh s (.tool t) args).2.2 = [(t, args)] := by
  rcases ht with h | h <;> subst h
  · show (runToolCase env w now beh .readData args s).2.2 = _
    rw [runToolCase_trace]
    simp [hok]
  · show (runToolCase env w now beh .updateData args s).2.2 = _
    rw [runToolCase_trace]
    simp [hok]

/-- Witness for dispatch_forwards_read_update_unvalidated: an
update_data call carrying no filter is forwarded as is. -/
theorem dispatch_forwards_read_update_unvalidated_witness :
    (handleCallTool envAzure0 okWorld 0 okBehavior {} (.tool .updateData)
      (some [("tableName", .vstr "t")])).2.2 =
      [(.updateData, some [("tableName", .vstr "t")])] :=
  dispatch_forwards_read_update_unvalidated envAzure0 okWorld 0 okBehavior {}
    (some [("tableName", .vstr "t")]) .updateData (Or.inr rfl) (by decide)

/-- C2: with READONLY set to true the ListTools handler advertises
only the non-mutating tools, but the CallTool handler still routes a
request named after the mutating update_data tool to that tool: the
mutation executes and the success envelope comes back instead of an
unknown-tool error. -/
theorem readonly_mode_still_executes_mutations :
    isReadOnly envReadOnly = true ∧
    ToolId.updateData ∉ listedTools envReadOnly ∧
    (handleCallTool envReadOnly okWorld 0 okBehavior {} (.tool .updateData)
       (some [("tableName", .vstr "t")])).2.2 =
      [(.updateData, some [("tableName", .vstr "t")])] ∧
    (handleCallTool envReadOnly okWorld 0 okBehavior {} (.tool .updateData)
       (some [("tableName", .vstr "t")])).1.isError = false := by
  decide

lemma createSqlConfig_windows_shape (env : Env)
    (tok : Except String AccessToken) (now : Nat)
    (h : configBranch env = .windows) :
    ∃ r, createSqlConfig env tok now = .ok r ∧
      r.config.options.encrypt =
        ((env.SERVER_NAME.map fun s => jsIncludes s cloudSuffix).getD false) := by
  unfold createSqlConfig
  rw [h]
  exact ⟨_, rfl, rfl⟩

/-- C8 amended: under the windows/ntlm branch the encryption flag of
the produced config equals the cloud-suffix containment test on
SERVER_NAME, for every environment: no configuration input can
override it. -/
theorem windows_encrypt_follows_server_name (env : Env)
    (tok : Except String AccessToken) (now : Nat) (r : CreateSqlConfigResult)
    (hb : configBranch env = .windows)
    (hok : createSqlConfig env tok now = .ok r) :
    r.config.options.encrypt =
      ((env.SERVER_NAME.map fun s => jsIncludes s cloudSuffix).getD false) := by
  obtain ⟨r2, hok2, henc⟩ := createSqlConfig_windows_shape env tok now hb
  rw [hok] at hok2
  cases hok2
  exact henc

/-- Witness for windows_encrypt_follows_server_name: a cloud server
name yields encrypt true and a local one yields encrypt false. -/
theorem windows_encrypt_follows_server_name_witness :
    (createSqlConfig envWinCloud (.error "e") 0).map
      (fun r => r.config.options.encrypt) = .ok true ∧
    (createSqlConfig envWinLocal (.error "e") 0).map
      (fun r => r.config.options.encrypt) = .ok false := by
  constructor
  · cases hok : createSqlConfig envWinCloud (.error "e") 0 with
    | error e =>
      obtain ⟨r2, hok2, _⟩ := createSqlConfig_windows_shape envWinCloud (.error "e") 0 (by decide)
      rw [hok] at hok2
      cases hok2
    | ok r =>
      have := windows_encrypt_follows_server_name envWinCloud (.error "e") 0 r (by decide) hok
      rw [Except.map, this]
      decide
  · cases hok : createSqlConfig envWinLocal (.error "e") 0 with
    | error e =>
      obtain ⟨r2, hok2, _⟩ := createSqlConfig_windows_shape envWinLocal (.error "e") 0 (by decide)
      rw [hok] at hok2
      cases hok2
    | ok r =>
      have := windows_encrypt_follows_server_name envWinLocal (.error "e") 0 r (by decide) hok
      rw [Except.map, this]
      decide

/-- C8 counterexample: no configuration at all makes the windows
branch emit encrypt true for the non-cloud server localhost, so the
claimed explicit override does not exist. -/
theorem windows_encrypt_not_overridable :
    ¬ ∃ (env : Env) (tok : Except String AccessToken) (now : Nat)
        (r : CreateSqlConfigResult),
        configBranch env = .windows ∧ env.SERVER_NAME = some "localhost" ∧
        createSqlConfig env tok now = .ok r ∧
        r.config.options.encrypt = true := by
  rintro ⟨env, tok, now, r, hb, hs, hok, henc⟩
  obtain ⟨r2, hok2, henc2⟩ := createSqlConfig_windows_shape env tok now hb
  rw [hok] at hok2
  cases hok2
  rw [hs] at henc2
  rw [henc] at henc2
  exact absurd henc2.symm (by decide)


/-- C9 counterexample: for the unrecognized mode entra, credential
resolution falls to the azure branch of createSqlConfig, yet
connection management takes the non-azure path: with a connected pool
and no cached token it reuses the connection and resolves nothing,
while the same state under the mode azure refreshes the token and
reconnects.  Connection management therefore does not fall back to
the federated mode. -/
theorem unrecognized_auth_management_not_azure :
    configBranch envEntra = .azure ∧
    authTypeOf envEntra ≠ "azure" ∧
    ensureSqlConnection envEntra okWorld 0 poolOnlyState = (.ok (), poolOnlyState) ∧
    (ensureSqlConnection envAzureNamed okWorld 0 poolOnlyState).2.tokenAcqCount = 1 ∧
    (ensureSqlConnection envAzureNamed okWorld 0 poolOnlyState).2.connectCount = 1 := by
  decide

/-- C9 amended: a mode value outside the recognized non-federated
names selects the azure branch of credential resolution, and the
unset mode resolves to azure entirely; but connection management runs
the federated token logic only when the resolved mode string is
exactly azure: for any other value it reuses any connected pool
unconditionally, with no token acquisition or connect. -/
theorem unrecognized_auth_fallback_split (env : Env)
    (h1 : authTypeOf env ≠ "windows") (h2 : authTypeOf env ≠ "ntlm")
    (h3 : authTypeOf env ≠ "sql") (h4 : authTypeOf env ≠ "sqlserver") :
    configBranch env = .azure ∧
    (env.AUTH_TYPE = none → authTypeOf env = "azure") ∧
    (authTypeOf env ≠ "azure" →
      ∀ (w : World) (now : Nat) (s : SqlState), poolConnected s = true →
        ensureSqlConnection env w now s = (.ok (), s)) := by
  refine ⟨?_, ?_, ?_⟩
  · unfold configBranch
    rw [if_neg (by simp [h1, h2]), if_neg (by simp [h3, h4])]
  · intro h
    unfold authTypeOf
    rw [h]
  · intro hA w now s hp
    apply ensure_of_reusable
    unfold reusable
    rw [if_pos hA]
    exact hp

/-- Witness for unrecognized_auth_fallback_split at the concrete mode
entra with a connected pool. -/
theorem unrecognized_auth_fallback_split_witness :
    configBranch envEntra = .azure ∧
    ensureSqlConnection envEntra okWorld 0 poolOnlyState = (.ok (), poolOnlyState) := by
  have h := unrecognized_auth_fallback_split envEntra
    (by decide) (by decide) (by decide) (by decide)
  exact ⟨h.1, h.2.2 (by decide) okWorld 0 poolOnlyState (by decide)⟩


lemma poolConnected_of_azureValid (now : Nat) (s : SqlState)
    (h : azureValid now s = true) : poolConnected s = true := by
  unfold azureValid at h
  rcases Bool.and_eq_true_iff.mp h with ⟨h1, _⟩
  exact (Bool.and_eq_true_iff.mp h1).1

lemma connectCount_if_closePool (c : Prop) [Decidable c] (x : SqlState) :
    (if c then closePool x else x).connectCount = x.connectCount := by
  split <;> rfl

lemma twoInv_step (env : Env) (w : World) (now : Nat)
    (r : CreateSqlConfigResult)
    (hcfg : createSqlConfig env w.tokenAcq now = .ok r)
    (sys : TwoCalls) (i : Bool) (h : TwoInv sys) :
    TwoInv (sysStep env w now sys i) := by
  obtain ⟨⟨apc, ad⟩, ⟨bpc, bd⟩, st⟩ := sys
  obtain ⟨i1, i2, i3, i4, i5, i6, i7, i8⟩ := h
  dsimp only at i1 i2 i3 i4 i5 i6 i7 i8
  cases i
  case true =>
    unfold sysStep threadStep
    dsimp only
    cases apc
    case check =>
      dsimp only
      by_cases hv : azureValid now st = true
      · rw [if_pos hv]
        refine ⟨i1, i2, ?_, i4, ?_, i6, ?_, i8⟩
        · intro _
          exact Or.inr (i2 (poolConnected_of_azureValid now st hv))
        · intro hc
          simp at hc
        · intro hc
          simp at hc
      · rw [if_neg hv]
        refine ⟨i1, i2, ?_, i4, ?_, i6, ?_, i8⟩
        · intro hc
          simp at hc
        · intro _
          exact i5 (Or.inl rfl)
        · intro hc
          simp at hc
    case config =>
      dsimp only
      rw [hcfg]
      dsimp only
      have had : ad = false := i5 (Or.inr rfl)
      subst had
      refine ⟨?_, ?_, ?_, ?_, ?_, i6, ?_, i8⟩
      · dsimp only
        rw [connectCount_if_closePool]
        dsimp only
        simp only [Bool.toNat_false, Bool.toNat_true] at i1 ⊢
        omega
      · intro _
        dsimp only
        rw [connectCount_if_closePool]
        omega
      · intro hc
        simp at hc
      · intro hb
        rcases i4 hb with hd | hcnt
        · exact Or.inl hd
        · refine Or.inr ?_
          dsimp only
          rw [connectCount_if_closePool]
          dsimp only
          omega
      · intro hc
        simp at hc
      · intro _
        rfl
    case connecting =>
      dsimp only
      have had : ad = true := i7 rfl
      subst had
      cases hcn : w.connect with
      | error e =>
        dsimp only
        refine ⟨i1, i2, ?_, i4, ?_, i6, ?_, i8⟩
        · intro _
          exact Or.inl rfl
        · intro hc
          simp at hc
        · intro hc
          simp at hc
      | ok p =>
        dsimp only
        refine ⟨i1, ?_, ?_, ?_, ?_, i6, ?_, i8⟩
        · intro _
          dsimp only
          simp only [Bool.toNat_true] at i1
          omega
        · intro _
          exact Or.inl rfl
        · intro hb
          rcases i4 hb with hd | hcnt
          · exact Or.inl hd
          · exact Or.inr hcnt
        · intro hc
          simp at hc
        · intro hc
          simp at hc
    case done =>
      dsimp only
      exact ⟨i1, i2, i3, i4, i5, i6, i7, i8⟩
  case false =>
    unfold sysStep threadStep
    dsimp only
    cases bpc
    case check =>
      dsimp only
      by_cases hv : azureValid now st = true
      · rw [if_pos hv]
        refine ⟨i1, i2, i3, ?_, i5, ?_, i7, ?_⟩
        · intro _
          exact Or.inr (i2 (poolConnected_of_azureValid now st hv))
        · intro hc
          simp at hc
        · intro hc
          simp at hc
      · rw [if_neg hv]
        refine ⟨i1, i2, i3, ?_, i5, ?_, i7, ?_⟩
        · intro hc
          simp at hc
        · intro _
          exact i6 (Or.inl rfl)
        · intro hc
          simp at hc
    case config =>
      dsimp only
      rw [hcfg]
      dsimp only
      have hbd : bd = false := i6 (Or.inr rfl)
      subst hbd
      refine ⟨?_, ?_, ?_, ?_, i5, ?_, i7, ?_⟩
      · dsimp only
        rw [connectCount_if_closePool]
        dsimp only
        simp only [Bool.toNat_false, Bool.toNat_true] at i1 ⊢
        omega
      · intro _
        dsimp only
        rw [connectCount_if_closePool]
        omega
      · intro ha2
        rcases i3 ha2 with hd | hcnt
        · exact Or.inl hd
        · refine Or.inr ?_
          dsimp only
          rw [connectCount_if_closePool]
          dsimp only
          omega
      · intro hc
        simp at hc
      · intro hc
        simp at hc
      · intro _
        rfl
    case connecting =>
      dsimp only
      have hbd : bd = true := i8 rfl
      subst hbd
      cases hcn : w.connect with
      | error e =>
        dsimp only
        refine ⟨i1, i2, i3, ?_, i5, ?_, i7, ?_⟩
        · intro _
          exact Or.inl rfl
        · intro hc
          simp at hc
        · intro hc
          simp at hc
      | ok p =>
        dsimp only
        refine ⟨i1, ?_, ?_, ?_, i5, ?_, i7, ?_⟩
        · intro _
          dsimp only
          simp only [Bool.toNat_true] at i1
          omega
        · intro ha2
          rcases i3 ha2 with hd | hcnt
          · exact Or.inl hd
          · exact Or.inr hcnt
        · intro _
          exact Or.inl rfl
        · intro hc
          simp at hc
        · intro hc
          simp at hc
    case done =>
      dsimp only
      exact ⟨i1, i2, i3, i4, i5, i6, i7, i8⟩


lemma twoInv_run (env : Env) (w : World) (now : Nat)
    (r : CreateSqlConfigResult)
    (hcfg : createSqlConfig env w.tokenAcq now = .ok r) :
    ∀ (sched : List Bool) (sys : TwoCalls), TwoInv sys →
      TwoInv (runSched env w now sys sched) := by
  intro sched
  induction sched with
  | nil => intro sys h; exact h
  | cons i rest ih =>
    intro sys h
    exact ih _ (twoInv_step env w now r hcfg sys i h)

/-- C3 counterexample: the interleaving in which both callers run
their validity check before either installs a pool makes both of them
connect: two sql.connect attempts, not one, even though both calls
complete.  ensureSqlConnection has no lock, so overlapping calls race
at the await points. -/
theorem concurrent_ensure_double_connect :
    bothDone (runSched envAzure0 okWorld 0 initTwoCalls
      [true, false, true, false, true, false]) ∧
    (runSched envAzure0 okWorld 0 initTwoCalls
      [true, false, true, false, true, false]).s.connectCount = 2 ∧
    (runSched envAzure0 okWorld 0 initTwoCalls
      [true, false, true, false, true, false]).s.connectCount ≠ 1 := by
  decide

/-- C3 amended: without serialization the number of connect attempts
made by two overlapping ensureSqlConnection calls from the
no-connection state depends on the interleaving: every schedule
performs at most two attempts, every schedule completing both calls
performs at least one, the fully interleaved schedule performs two,
and the fully sequential schedule performs one. -/
theorem concurrent_ensure_connect_bounds :
    (∀ sched : List Bool,
       (runSched envAzure0 okWorld 0 initTwoCalls sched).s.connectCount ≤ 2 ∧
       (bothDone (runSched envAzure0 okWorld 0 initTwoCalls sched) →
          1 ≤ (runSched envAzure0 okWorld 0 initTwoCalls sched).s.connectCount)) ∧
    (runSched envAzure0 okWorld 0 initTwoCalls
       [true, false, true, false, true, false]).s.connectCount = 2 ∧
    (runSched envAzure0 okWorld 0 initTwoCalls
       [true, true, true, false]).s.connectCount = 1 := by
  refine ⟨?_, by decide, by decide⟩
  intro sched
  obtain ⟨r, hr⟩ := createSqlConfig_azure_ok envAzure0
    { token := "tok", expiresOnTimestamp := some 10000000 } 0 (by decide)
  have hinv := twoInv_run envAzure0 okWorld 0 r hr sched initTwoCalls (by decide)
  obtain ⟨i1, i2, i3, i4, _, _, _, _⟩ := hinv
  have ha : (runSched envAzure0 okWorld 0 initTwoCalls sched).a.did.toNat ≤ 1 :=
    Bool.toNat_le _
  have hb : (runSched envAzure0 okWorld 0 initTwoCalls sched).b.did.toNat ≤ 1 :=
    Bool.toNat_le _
  constructor
  · omega
  · intro hd
    rcases i3 hd.1 with h | h
    · rw [h] at i1
      simp only [Bool.toNat_true] at i1
      omega
    · exact h

/-- Witness for concurrent_ensure_connect_bounds: the fully
interleaved schedule completes both calls, so it performs at least
one connect (here in fact two). -/
theorem concurrent_ensure_connect_bounds_witness :
    1 ≤ (runSched envAzure0 okWorld 0 initTwoCalls
      [true, false, true, false, true, false]).s.connectCount :=
  (concurrent_ensure_connect_bounds.1
    [true, false, true, false, true, false]).2 (by decide)

end MssqlMcp
